import Mathlib

/-!
Shallow embedding of the portfolio-manager engine of the `fund` repository
(`src/applications/portfoliomanager/src/portfoliomanager/`), covering:

- the prediction ranking columns (`add_predictions_zscore_ranked_columns`),
- the position lifecycle classifier and rebalancing equalizer
  (`add_portfolio_action_column`, `add_portfolio_performance_columns`),
- the portfolio constructor (`create_optimal_portfolio` and its helpers
  `_filter_positions`, `_filter_side_capital_amount`,
  `_collect_portfolio_positions`),
- the execution / service layer of `server.py`
  (`_open_single_position`, `_open_all_positions`,
  `get_prior_portfolio_tickers`, `_prepare_portfolio_data`, `get_positions`).

Polars dataframes are embedded as Lists of structures (one structure per row
schema); 64-bit floats are embedded as exact rationals; Python exceptions are
embedded as `Except` / `Option` results.  Snake_case Python names are kept as
camelCase Lean names.
-/

namespace Fund

/-- Side of a position, `PositionSide` in `enums.py` (values LONG / SHORT). -/
inductive Side where
  | long
  | short
deriving DecidableEq

/-- Action assigned to a position.  The `PositionAction` enum checked into
`src/.../enums.py` carries only OPEN_POSITION, CLOSE_POSITION and UNSPECIFIED;
the two further members MAINTAIN_POSITION and PDT_LOCKED, referenced throughout
`risk_management.py`, are modelled from the spec (section 3, Data Model), which
lists the full action set of the newer revision. -/
inductive Action where
  | openPosition
  | closePosition
  | maintainPosition
  | unspecified
  | pdtLocked
deriving DecidableEq

/-- Trade side used for brokerage orders, `TradeSide` in `enums.py`. -/
inductive TradeSide where
  | buy
  | sell
deriving DecidableEq

/-- Row of a ranked-prediction frame: output schema of
`add_predictions_zscore_ranked_columns` and input schema of
`create_optimal_portfolio`. -/
structure RankedPrediction where
  ticker : String
  quantile10 : ℚ
  quantile50 : ℚ
  quantile90 : ℚ
  zScoreReturn : ℚ
  interQuartileRange : ℚ
  compositeScore : ℚ
deriving DecidableEq

/-- Row of a portfolio frame (the persisted snapshot schema). -/
structure Position where
  ticker : String
  timestamp : ℚ
  side : Side
  dollarAmount : ℚ
  action : Action
deriving DecidableEq

/-- Row of the joined frame `prior_portfolio_with_data` built inside
`add_portfolio_performance_columns` (lines 98-146): a position joined with its
original prediction thresholds (`quantile_10` as `original_lower_threshold`,
`quantile_90` as `original_upper_threshold`) and with its computed
`cumulative_simple_return`.  The embedding of the classification and
rebalancing stages (lines 148-276) operates on this row type; the per-row
window / log-sum / exp computation producing `cumulative_simple_return` is
taken as the field value. -/
structure PortfolioRow where
  ticker : String
  timestamp : ℚ
  side : Side
  dollarAmount : ℚ
  action : Action
  originalLowerThreshold : ℚ
  originalUpperThreshold : ℚ
  cumulativeSimpleReturn : ℚ
deriving DecidableEq

/-- UNCERTAINTY_THRESHOLD, default value of OSCM_UNCERTAINTY_THRESHOLD: 0.1,
written `mkRat 1 10` (equal to `1 / 10`) to keep it kernel-reducible. -/
def UNCERTAINTY_THRESHOLD : ℚ := mkRat 1 10

/-- UTC calendar day of an epoch timestamp:
`datetime.fromtimestamp(ts, tz=UTC).date()` in `add_portfolio_action_column`
is embedded as the floor of `ts / 86400` (days since the epoch). -/
def utcDay (ts : ℚ) : ℤ := ⌊ts / 86400⌋

/-- Embedding of `add_portfolio_action_column` (risk_management.py 16-35):
positions opened on the same UTC calendar day as the current cycle are marked
PDT_LOCKED, all others UNSPECIFIED. -/
def addPortfolioActionColumn (priorPortfolio : List Position) (nowTs : ℚ) :
    List Position :=
  priorPortfolio.map fun r =>
    { r with
      action :=
        if utcDay r.timestamp = utcDay nowTs then Action.pdtLocked
        else Action.unspecified }

/-- Classification `when/then/otherwise` chain of
`add_portfolio_performance_columns` (lines 148-190), per joined row.  The
redundant `action != PDT_LOCKED` conjunct of the close branch mirrors the
source. -/
def classifyRow (r : PortfolioRow) : Action :=
  if r.action = Action.pdtLocked then Action.pdtLocked
  else if r.action ≠ Action.pdtLocked ∧
      ((r.side = Side.long ∧
          r.cumulativeSimpleReturn ≤ r.originalLowerThreshold) ∨
        (r.side = Side.short ∧
          r.originalUpperThreshold ≤ r.cumulativeSimpleReturn)) then
    Action.closePosition
  else if (r.side = Side.long ∧
        r.originalUpperThreshold ≤ r.cumulativeSimpleReturn) ∨
      (r.side = Side.short ∧
        r.cumulativeSimpleReturn ≤ r.originalLowerThreshold) then
    Action.maintainPosition
  else Action.unspecified

/-- Classification stage applied to the whole joined frame
(`portfolio_with_actions` before rebalancing). -/
def classify (pf : List PortfolioRow) : List PortfolioRow :=
  pf.map fun r => { r with action := classifyRow r }

/-- Count of positions on one side whose action is CLOSE_POSITION
(`closed_long_count` / `closed_short_count`, lines 194-202). -/
def closedCount (s : Side) (pf : List PortfolioRow) : ℕ :=
  (pf.filter fun r => r.side = s ∧ r.action = Action.closePosition).length

/-- Positions on one side that are neither already being closed nor PDT
locked: the candidate pool of the rebalancing selection (lines 210-215 and
243-248). -/
def eligibleRows (s : Side) (pf : List PortfolioRow) : List PortfolioRow :=
  pf.filter fun r =>
    r.side = s ∧ r.action ≠ Action.closePosition ∧ r.action ≠ Action.pdtLocked

/-- Ascending order on cumulative_simple_return (used to pick best shorts). -/
def csrAsc (a b : PortfolioRow) : Prop :=
  a.cumulativeSimpleReturn ≤ b.cumulativeSimpleReturn

instance : DecidableRel csrAsc := fun a b =>
  inferInstanceAs (Decidable (a.cumulativeSimpleReturn ≤ b.cumulativeSimpleReturn))

/-- Descending order on cumulative_simple_return (used to pick best longs). -/
def csrDesc (a b : PortfolioRow) : Prop :=
  b.cumulativeSimpleReturn ≤ a.cumulativeSimpleReturn

instance : DecidableRel csrDesc := fun a b =>
  inferInstanceAs (Decidable (b.cumulativeSimpleReturn ≤ a.cumulativeSimpleReturn))

/-- Selection pattern shared by the two rebalancing branches: the eligible
rows of one side, sorted by the given performance order, `head(n)`,
`select("ticker")`. -/
def selectBestTickers (s : Side) (rel : PortfolioRow → PortfolioRow → Prop)
    [DecidableRel rel] (pf : List PortfolioRow) (n : ℕ) : List String :=
  (((eligibleRows s pf).insertionSort rel).take n).map PortfolioRow.ticker

/-- Tickers of the up-to-`n` best-performing shorts: the eligible shorts
sorted ascending by cumulative_simple_return, `head(n)`, `select("ticker")`
(lines 210-219). -/
def bestShortTickers (pf : List PortfolioRow) (n : ℕ) : List String :=
  selectBestTickers Side.short csrAsc pf n

/-- Tickers of the up-to-`n` best-performing longs: the eligible longs sorted
descending by cumulative_simple_return, `head(n)`, `select("ticker")`
(lines 243-252). -/
def bestLongTickers (pf : List PortfolioRow) (n : ℕ) : List String :=
  selectBestTickers Side.long csrDesc pf n

/-- Force-close overwrite
`when(col("ticker").is_in(tickers)).then(CLOSE_POSITION).otherwise(col("action"))`
(lines 230-235 and 263-268): every row whose ticker is in the selected list
gets action CLOSE_POSITION, regardless of its side or current action. -/
def forceCloseByTicker (tickers : List String) (pf : List PortfolioRow) :
    List PortfolioRow :=
  pf.map fun r =>
    if r.ticker ∈ tickers then { r with action := Action.closePosition } else r

/-- Rebalancing equalizer of `add_portfolio_performance_columns`
(lines 192-268), applied to the classified frame.  The `height > 0` guards of
the source are mirrored by the emptiness tests on the selected ticker lists. -/
def rebalance (pf : List PortfolioRow) : List PortfolioRow :=
  let closedLongCount := closedCount Side.long pf
  let closedShortCount := closedCount Side.short pf
  if closedShortCount < closedLongCount then
    let sel := bestShortTickers pf (closedLongCount - closedShortCount)
    if sel = [] then pf else forceCloseByTicker sel pf
  else if closedLongCount < closedShortCount then
    let sel := bestLongTickers pf (closedShortCount - closedLongCount)
    if sel = [] then pf else forceCloseByTicker sel pf
  else pf

/-- Classification followed by rebalancing: embedding of lines 148-276 of
`add_portfolio_performance_columns` on the joined frame (the final `drop` of
the helper columns is a projection and is kept as the full row). -/
def classifyAndRebalance (pf : List PortfolioRow) : List PortfolioRow :=
  rebalance (classify pf)

/-- Mean of a batch column (`pl.col(...).mean()`). -/
def sampleMean (xs : List ℚ) : ℚ := xs.sum / xs.length

/-- Sample variance with ddof = 1 (square of polars `std()`); for a batch of
fewer than 2 rows polars yields null, which callers must branch on before
using this value (the rational division by zero below is never relied on). -/
def sampleVariance (xs : List ℚ) : ℚ :=
  ((xs.map fun x => (x - sampleMean xs) ^ 2).sum) / ((xs.length : ℚ) - 1)

/-- Characterizes `s` as the sample standard deviation of the batch `xs`:
the nonnegative square root of the sample variance.  The square root itself is
kept symbolic so that the development stays executable. -/
def IsSampleStd (xs : List ℚ) (s : ℚ) : Prop :=
  0 ≤ s ∧ s ^ 2 = sampleVariance xs

/-- Embedding of the denominator expression
`current_predictions.select(pl.col("quantile_50").std()).item() or 1e-8`
(risk_management.py 285-287): the Python `or` replaces the value by `1e-8`
exactly when it is None (batch of fewer than 2 rows) or exactly 0.0; any
other value, however small, is kept. -/
def stdOrFloor (xs : List ℚ) (s : ℚ) : ℚ :=
  if xs.length < 2 ∨ s = 0 then mkRat 1 (10 ^ 8) else s

/-- z_score_return column of `add_predictions_zscore_ranked_columns`
(lines 289-291), for the row with quantile_50 value `x`, where `s` is the
sample standard deviation of the batch of quantile_50 values `xs`. -/
def zScoreReturn (xs : List ℚ) (s : ℚ) (x : ℚ) : ℚ :=
  (x - sampleMean xs) / stdOrFloor xs s

/-- Errors raised by the constructors, in place of the
`InsufficientPredictionsError` messages: `noComponents` carries the three
component counts of the `_collect_portfolio_positions` message,
`insufficientPredictions` carries the available and required counts stated by
the ticker-list-mode message. -/
inductive PortfolioError where
  | noComponents (longCount shortCount maintainedCount : ℕ)
  | insufficientPredictions (available required : ℕ)
deriving DecidableEq

/-- Output order `sort(["ticker", "side"])`: ascending by ticker then by side,
where sides order as their string values ("LONG" before "SHORT"). -/
def positionLE (a b : Position) : Prop :=
  a.ticker < b.ticker ∨
    (a.ticker = b.ticker ∧ (a.side = Side.long ∨ b.side = Side.short))

instance : DecidableRel positionLE := fun a b =>
  inferInstanceAs (Decidable (a.ticker < b.ticker ∨
    (a.ticker = b.ticker ∧ (a.side = Side.long ∨ b.side = Side.short))))

/-- Embedding of `_filter_side_capital_amount` (lines 493-506): total dollar
amount of the positions on one side (0.0 for an empty side). -/
def filterSideCapitalAmount (positions : List Position) (s : Side) : ℚ :=
  ((positions.filter fun r => r.side = s).map Position.dollarAmount).sum

/-- Embedding of `_collect_portfolio_positions` (lines 509-553): concatenates
the nonempty components (appending an empty list is the identity, so the
source's conditional appends reduce to plain concatenation), raises
InsufficientPredictions when every component is empty, and sorts the result by
(ticker, side). -/
def collectPortfolioPositions (longPositions shortPositions maintainedPositions :
    List Position) : Except PortfolioError (List Position) :=
  if longPositions.length = 0 ∧ shortPositions.length = 0 ∧
      maintainedPositions.length = 0 then
    Except.error (PortfolioError.noComponents longPositions.length
      shortPositions.length maintainedPositions.length)
  else
    Except.ok
      ((longPositions ++ shortPositions ++ maintainedPositions).insertionSort
        positionLE)

/-- Embedding of `create_optimal_portfolio` (risk_management.py 305-455), the
full-reconciliation variant present under src: excludes high-uncertainty,
closed and maintained tickers, apportions capital per side, sizes the long and
short candidate counts, and collects the result.  `_filter_positions`
(lines 458-490) is inlined as the two action filters, whose behaviour on the
empty frame coincides with the source's explicit empty-frame branch.  Python
`max(0, 10 - count)` on nonnegative ints is Nat subtraction; `//` is Nat
division. -/
def createOptimalPortfolio (currentPredictions : List RankedPrediction)
    (priorPortfolio : List Position) (maximumCapital : ℚ) (nowTs : ℚ) :
    Except PortfolioError (List Position) :=
  let highUncertaintyTickers :=
    (currentPredictions.filter fun p =>
      UNCERTAINTY_THRESHOLD < p.interQuartileRange).map RankedPrediction.ticker
  let closedPositions :=
    priorPortfolio.filter fun r => r.action = Action.closePosition
  let maintainedPositions :=
    priorPortfolio.filter fun r => r.action = Action.maintainPosition
  let excludedTickers :=
    highUncertaintyTickers ++ closedPositions.map Position.ticker ++
      maintainedPositions.map Position.ticker
  let availablePredictions :=
    currentPredictions.filter fun p => p.ticker ∉ excludedTickers
  let maintainedLongCapital :=
    filterSideCapitalAmount maintainedPositions Side.long
  let maintainedShortCapital :=
    filterSideCapitalAmount maintainedPositions Side.short
  let closedLongCapital := filterSideCapitalAmount closedPositions Side.long
  let closedShortCapital := filterSideCapitalAmount closedPositions Side.short
  let targetSideCapital := maximumCapital / 2
  let availableLongCapital :=
    max 0 (targetSideCapital - maintainedLongCapital + closedLongCapital)
  let availableShortCapital :=
    max 0 (targetSideCapital - maintainedShortCapital + closedShortCapital)
  let maintainedLongCount :=
    (maintainedPositions.filter fun r => r.side = Side.long).length
  let maintainedShortCount :=
    (maintainedPositions.filter fun r => r.side = Side.short).length
  let newLongPositionsNeeded := 10 - maintainedLongCount
  let newShortPositionsNeeded := 10 - maintainedShortCount
  let totalAvailable := availablePredictions.length
  let maximumLongCandidates := min newLongPositionsNeeded (totalAvailable / 2)
  let maximumShortCandidates :=
    min newShortPositionsNeeded (totalAvailable - maximumLongCandidates)
  let longCandidates := availablePredictions.take maximumLongCandidates
  let shortCandidates :=
    availablePredictions.drop (totalAvailable - maximumShortCandidates)
  let dollarAmountPerLong :=
    if 0 < maximumLongCandidates then
      availableLongCapital / maximumLongCandidates
    else 0
  let dollarAmountPerShort :=
    if 0 < maximumShortCandidates then
      availableShortCapital / maximumShortCandidates
    else 0
  let longPositions := longCandidates.map fun p =>
    ⟨p.ticker, nowTs, Side.long, dollarAmountPerLong, Action.openPosition⟩
  let shortPositions := shortCandidates.map fun p =>
    ⟨p.ticker, nowTs, Side.short, dollarAmountPerShort, Action.openPosition⟩
  collectPortfolioPositions longPositions shortPositions maintainedPositions

/-- REQUIRED_PORTFOLIO_SIZE of the ticker-list-exclusion constructor. -/
def REQUIRED_PORTFOLIO_SIZE : ℕ := 20

/-- Modelled from the spec: the ticker-list-exclusion variant of
`create_optimal_portfolio` (spec section 4.4 mode (a)), which `server.py`
(`get_optimal_portfolio`) and `tests/test_risk_management.py` invoke with a
`prior_portfolio_tickers` list but which is not present under src (the
checked-in `risk_management.py` carries the full-reconciliation variant
instead).  Per the spec it excludes every ticker in the supplied prior
portfolio list as well as high-uncertainty tickers, requires exactly
REQUIRED_PORTFOLIO_SIZE = 20 available candidates (10 long + 10 short) and
otherwise fails with InsufficientPredictions stating the actual and required
counts; the head of the ranked list becomes the long side, the tail the short
side, each position sized at (capital / 2) / 10, output sorted by
(ticker, side). -/
def createOptimalPortfolioFromTickers (currentPredictions : List RankedPrediction)
    (priorPortfolioTickers : List String) (maximumCapital : ℚ) (nowTs : ℚ) :
    Except PortfolioError (List Position) :=
  let availablePredictions :=
    currentPredictions.filter fun p =>
      p.ticker ∉ priorPortfolioTickers ∧
        ¬UNCERTAINTY_THRESHOLD < p.interQuartileRange
  if availablePredictions.length < REQUIRED_PORTFOLIO_SIZE then
    Except.error (PortfolioError.insufficientPredictions
      availablePredictions.length REQUIRED_PORTFOLIO_SIZE)
  else
    let dollarAmountPerPosition := maximumCapital / 2 / 10
    let longPositions := (availablePredictions.take 10).map fun p =>
      (⟨p.ticker, nowTs, Side.long, dollarAmountPerPosition,
        Action.openPosition⟩ : Position)
    let shortPositions :=
      (availablePredictions.drop (availablePredictions.length - 10)).map fun p =>
        (⟨p.ticker, nowTs, Side.short, dollarAmountPerPosition,
          Action.openPosition⟩ : Position)
    Except.ok ((longPositions ++ shortPositions).insertionSort positionLE)

/-- Brokerage account snapshot returned by `alpaca_client.get_account()`. -/
structure AlpacaAccount where
  cashAmount : ℚ
  buyingPower : ℚ

/-- Open instruction dict built by `get_positions` and consumed by
`_open_single_position`. -/
structure OpenInstruction where
  ticker : String
  side : TradeSide
  dollarAmount : ℚ
deriving DecidableEq

/-- Close instruction dict built by `get_positions`. -/
structure CloseInstruction where
  ticker : String
deriving DecidableEq

/-- Per-instruction status of an execution result dict. -/
inductive ExecStatus where
  | success
  | skipped
  | failed
deriving DecidableEq

/-- Reason codes attached to skipped execution results
("insufficient_buying_power", "not_shortable", "position_not_found"). -/
inductive SkipReason where
  | insufficientBuyingPower
  | notShortable
  | positionNotFound
deriving DecidableEq

/-- Execution result dict for one open instruction (the `error` text of a
failed trade is not modelled). -/
structure ExecutionResult where
  ticker : String
  status : ExecStatus
  reason : Option SkipReason
deriving DecidableEq

/-- Behaviour of the brokerage collaborator on one
`alpaca_client.open_position` call, together with the subsequent
`get_account()` refresh: `opens (some bp)` is a successful order whose refresh
reports buying power `bp`, `opens none` is a successful order whose refresh
raises (so the caller falls back to the spent-amount estimate), and the three
remaining cases are the exceptions `_open_single_position` catches. -/
inductive BrokerOpenBehavior where
  | opens (refreshedBuyingPower : Option ℚ)
  | raisesInsufficientBuyingPower
  | raisesNotShortable
  | raisesOther
deriving DecidableEq

/-- Embedding of `_open_single_position` (server.py 137-262).  Returns the
result dict, the updated remaining buying power, the skip reason, and whether
the brokerage was called for this instruction (the source's insufficient
buying-power guard returns before any `alpaca_client` call). -/
def openSinglePosition (instr : OpenInstruction) (remainingBuyingPower : ℚ)
    (behavior : BrokerOpenBehavior) :
    ExecutionResult × ℚ × Option SkipReason × Bool :=
  if remainingBuyingPower < instr.dollarAmount then
    (⟨instr.ticker, ExecStatus.skipped, some SkipReason.insufficientBuyingPower⟩,
      remainingBuyingPower, some SkipReason.insufficientBuyingPower, false)
  else
    match behavior with
    | BrokerOpenBehavior.opens (some bp) =>
        (⟨instr.ticker, ExecStatus.success, none⟩, bp, none, true)
    | BrokerOpenBehavior.opens none =>
        (⟨instr.ticker, ExecStatus.success, none⟩,
          remainingBuyingPower - instr.dollarAmount, none, true)
    | BrokerOpenBehavior.raisesInsufficientBuyingPower =>
        (⟨instr.ticker, ExecStatus.skipped,
            some SkipReason.insufficientBuyingPower⟩,
          remainingBuyingPower, some SkipReason.insufficientBuyingPower, true)
    | BrokerOpenBehavior.raisesNotShortable =>
        (⟨instr.ticker, ExecStatus.skipped, some SkipReason.notShortable⟩,
          remainingBuyingPower, some SkipReason.notShortable, true)
    | BrokerOpenBehavior.raisesOther =>
        (⟨instr.ticker, ExecStatus.failed, none⟩,
          remainingBuyingPower, none, true)

/-- Embedding of `_open_all_positions` (server.py 265-297): opens the
instructions sequentially, threading the remaining buying power; returns the
result list and the final remaining buying power (the skip counters of the
source are used only for logging and are not modelled). -/
def openAllPositions (instrs : List OpenInstruction)
    (remainingBuyingPower : ℚ) (broker : OpenInstruction → BrokerOpenBehavior) :
    List ExecutionResult × ℚ :=
  match instrs with
  | [] => ([], remainingBuyingPower)
  | instr :: rest =>
    let step := openSinglePosition instr remainingBuyingPower (broker instr)
    let tail := openAllPositions rest step.2.1 broker
    (step.1 :: tail.1, tail.2)

/-- Embedding of `get_positions` (server.py 498-518): one close instruction
per prior portfolio ticker and one open instruction per row of the new
optimal portfolio (BUY for LONG rows, SELL otherwise). -/
def getPositions (priorPortfolioTickers : List String)
    (optimalPortfolio : List Position) :
    List OpenInstruction × List CloseInstruction :=
  (optimalPortfolio.map fun r =>
      ⟨r.ticker,
        if r.side = Side.long then TradeSide.buy else TradeSide.sell,
        r.dollarAmount⟩,
    priorPortfolioTickers.map fun t => ⟨t⟩)

/-- Outcome of one GET on the portfolio store, as observed by
`get_prior_portfolio_tickers`: an HTTP response with a status code and a body
(`none` models an empty or unparseable body, for which the source catches
ValueError / JSONDecodeError), or a transport-level failure (an exception the
function does not catch, such as a connection error or timeout). -/
inductive PriorPortfolioFetch where
  | response (statusCode : ℕ) (body : Option (List Position))
  | transportFailure

/-- Embedding of `get_prior_portfolio_tickers` (server.py 424-465): `none`
models an exception propagating to the caller; a 404, any status of 400 or
above, an empty or unparseable body, and an empty frame all yield the empty
ticker list; otherwise the unique tickers of the rows are returned (polars
`unique()` is embedded as `dedup`, keeping first occurrences). -/
def getPriorPortfolioTickers : PriorPortfolioFetch → Option (List String)
  | PriorPortfolioFetch.transportFailure => none
  | PriorPortfolioFetch.response statusCode body =>
    if statusCode = 404 then some []
    else if 400 ≤ statusCode then some []
    else
      match body with
      | none => some []
      | some rows => some (rows.map Position.ticker).dedup

/-- Result of `_prepare_portfolio_data` as seen by `create_portfolio`: a
fatal 500 response, a 204 no-content response (insufficient predictions), or
the prepared data. -/
inductive PrepareOutcome where
  | serverError
  | noContent
  | ready (priorPortfolioTickers : List String) (optimalPortfolio : List Position)
deriving DecidableEq

/-- Embedding of `_prepare_portfolio_data` (server.py 300-360): a failed
account fetch, a failed predictions fetch, or a propagating prior-portfolio
fetch exception each yield the 500 response; an InsufficientPredictions
failure of the constructor yields the 204 no-content response; otherwise the
prepared data is returned.  The constructor invoked (via
`get_optimal_portfolio`) is the ticker-list-exclusion variant; the snapshot
save and schema validation of `get_optimal_portfolio` are not modelled. -/
def preparePortfolioData (account : Option AlpacaAccount)
    (currentPredictions : Option (List RankedPrediction))
    (priorFetch : PriorPortfolioFetch) (nowTs : ℚ) : PrepareOutcome :=
  match account with
  | none => PrepareOutcome.serverError
  | some acct =>
    match currentPredictions with
    | none => PrepareOutcome.serverError
    | some preds =>
      match getPriorPortfolioTickers priorFetch with
      | none => PrepareOutcome.serverError
      | some priorTickers =>
        match createOptimalPortfolioFromTickers preds priorTickers
            acct.cashAmount nowTs with
        | Except.error _ => PrepareOutcome.noContent
        | Except.ok pf => PrepareOutcome.ready priorTickers pf

/-- Close trigger of the classifier as the spec states it: a LONG position
whose cumulative simple return is at or below its original quantile_10, or a
SHORT position whose cumulative simple return is at or above its original
quantile_90. -/
def closeTrigger (r : PortfolioRow) : Prop :=
  (r.side = Side.long ∧
      r.cumulativeSimpleReturn ≤ r.originalLowerThreshold) ∨
    (r.side = Side.short ∧
      r.originalUpperThreshold ≤ r.cumulativeSimpleReturn)

instance (r : PortfolioRow) : Decidable (closeTrigger r) :=
  inferInstanceAs (Decidable (_ ∨ _))

/-- Maintain trigger of the classifier as the spec states it: a LONG position
whose cumulative simple return is at or above its original quantile_90, or the
symmetric SHORT case. -/
def maintainTrigger (r : PortfolioRow) : Prop :=
  (r.side = Side.long ∧
      r.originalUpperThreshold ≤ r.cumulativeSimpleReturn) ∨
    (r.side = Side.short ∧
      r.cumulativeSimpleReturn ≤ r.originalLowerThreshold)

instance (r : PortfolioRow) : Decidable (maintainTrigger r) :=
  inferInstanceAs (Decidable (_ ∨ _))

instance : IsTotal PortfolioRow csrAsc :=
  ⟨fun a b => le_total a.cumulativeSimpleReturn b.cumulativeSimpleReturn⟩

instance : IsTrans PortfolioRow csrAsc :=
  ⟨fun _ _ _ hab hbc => le_trans hab hbc⟩

instance : IsTotal PortfolioRow csrDesc :=
  ⟨fun a b => le_total b.cumulativeSimpleReturn a.cumulativeSimpleReturn⟩

instance : IsTrans PortfolioRow csrDesc :=
  ⟨fun _ _ _ hab hbc => le_trans hbc hab⟩

/-- Twenty distinct-ticker, zero-uncertainty ranked predictions with strictly
descending composite scores, used as a concrete service-cycle input. -/
def predictionsTwenty : List RankedPrediction :=
  (List.range 20).map fun i =>
    ⟨"T" ++ toString i, 0, 0, 0, 0, 0, (20 : ℚ) - i⟩

/-- Thirty distinct-ticker, zero-uncertainty ranked predictions with strictly
descending composite scores, used as a concrete constructor input. -/
def predsThirty : List RankedPrediction :=
  [⟨"T00", 0, 0, 0, 0, 0, 30⟩,
    ⟨"T01", 0, 0, 0, 0, 0, 29⟩,
    ⟨"T02", 0, 0, 0, 0, 0, 28⟩,
    ⟨"T03", 0, 0, 0, 0, 0, 27⟩,
    ⟨"T04", 0, 0, 0, 0, 0, 26⟩,
    ⟨"T05", 0, 0, 0, 0, 0, 25⟩,
    ⟨"T06", 0, 0, 0, 0, 0, 24⟩,
    ⟨"T07", 0, 0, 0, 0, 0, 23⟩,
    ⟨"T08", 0, 0, 0, 0, 0, 22⟩,
    ⟨"T09", 0, 0, 0, 0, 0, 21⟩,
    ⟨"T10", 0, 0, 0, 0, 0, 20⟩,
    ⟨"T11", 0, 0, 0, 0, 0, 19⟩,
    ⟨"T12", 0, 0, 0, 0, 0, 18⟩,
    ⟨"T13", 0, 0, 0, 0, 0, 17⟩,
    ⟨"T14", 0, 0, 0, 0, 0, 16⟩,
    ⟨"T15", 0, 0, 0, 0, 0, 15⟩,
    ⟨"T16", 0, 0, 0, 0, 0, 14⟩,
    ⟨"T17", 0, 0, 0, 0, 0, 13⟩,
    ⟨"T18", 0, 0, 0, 0, 0, 12⟩,
    ⟨"T19", 0, 0, 0, 0, 0, 11⟩,
    ⟨"T20", 0, 0, 0, 0, 0, 10⟩,
    ⟨"T21", 0, 0, 0, 0, 0, 9⟩,
    ⟨"T22", 0, 0, 0, 0, 0, 8⟩,
    ⟨"T23", 0, 0, 0, 0, 0, 7⟩,
    ⟨"T24", 0, 0, 0, 0, 0, 6⟩,
    ⟨"T25", 0, 0, 0, 0, 0, 5⟩,
    ⟨"T26", 0, 0, 0, 0, 0, 4⟩,
    ⟨"T27", 0, 0, 0, 0, 0, 3⟩,
    ⟨"T28", 0, 0, 0, 0, 0, 2⟩,
    ⟨"T29", 0, 0, 0, 0, 0, 1⟩]

/-- C2: for every non-PDT-locked prior position joined with its original
prediction thresholds, the classification stage assigns CLOSE_POSITION when
the close trigger holds (LONG with return at or below quantile_10, SHORT with
return at or above quantile_90), MAINTAIN_POSITION when the close trigger
does not hold and the maintain trigger holds (LONG with return at or above
quantile_90, SHORT symmetric), and UNSPECIFIED otherwise, the triggers being
read in the order the spec lists them (the two triggers can only overlap in
the degenerate case quantile_10 = quantile_90 = return, where the close
trigger is applied first). -/
theorem c2_lifecycle_classifier_triggers (r : PortfolioRow)
    (h : r.action ≠ Action.pdtLocked) :
    (closeTrigger r → classifyRow r = Action.closePosition) ∧
    (¬closeTrigger r → maintainTrigger r →
      classifyRow r = Action.maintainPosition) ∧
    (¬closeTrigger r → ¬maintainTrigger r →
      classifyRow r = Action.unspecified) := by
  unfold classifyRow
  refine ⟨fun hc => ?_, fun hnc hm => ?_, fun hnc hnm => ?_⟩
  · unfold closeTrigger at hc
    rw [if_neg h, if_pos ⟨h, hc⟩]
  · unfold closeTrigger at hnc
    unfold maintainTrigger at hm
    rw [if_neg h, if_neg fun hx => hnc hx.2, if_pos hm]
  · unfold closeTrigger at hnc
    unfold maintainTrigger at hnm
    rw [if_neg h, if_neg fun hx => hnc hx.2, if_neg hnm]

/-- Witness for C2: a LONG position whose cumulative simple return (-2)
breaches its original quantile_10 (-1) is assigned CLOSE_POSITION. -/
theorem c2_lifecycle_classifier_triggers_witness :
    classifyRow
      ⟨"AAA", 0, Side.long, 100, Action.unspecified,
        -(1 : ℚ), 1, -(2 : ℚ)⟩ = Action.closePosition :=
  (c2_lifecycle_classifier_triggers _ (by decide)).1 (by decide)

/-- Every open instruction produces exactly one execution result: the
orchestrator keeps processing the remaining instructions after a skip. -/
theorem openAllPositions_length (instrs : List OpenInstruction) (b : ℚ)
    (broker : OpenInstruction → BrokerOpenBehavior) :
    (openAllPositions instrs b broker).1.length = instrs.length := by
  induction instrs generalizing b with
  | nil => rfl
  | cons i rest ih => simp [openAllPositions, ih]

/-- C8: an open instruction whose dollar amount exceeds the remaining buying
power yields a result with status skipped and reason
insufficient_buying_power, leaves the remaining buying power unchanged, does
not call the broker (the final Boolean of the tuple), and the orchestrator
still produces one result per instruction. -/
theorem c8_insufficient_buying_power_skips (instr : OpenInstruction)
    (remainingBuyingPower : ℚ) (behavior : BrokerOpenBehavior)
    (h : remainingBuyingPower < instr.dollarAmount) :
    openSinglePosition instr remainingBuyingPower behavior =
      (⟨instr.ticker, ExecStatus.skipped,
          some SkipReason.insufficientBuyingPower⟩,
        remainingBuyingPower, some SkipReason.insufficientBuyingPower,
        false) ∧
    ∀ (instrs : List OpenInstruction) (b : ℚ)
      (broker : OpenInstruction → BrokerOpenBehavior),
      (openAllPositions instrs b broker).1.length = instrs.length :=
  ⟨by unfold openSinglePosition; rw [if_pos h],
    fun instrs b broker => openAllPositions_length instrs b broker⟩

/-- Witness for C8: a 600-dollar open against 500 remaining buying power is
skipped with reason insufficient_buying_power, the budget stays 500, the
broker is not called, and a two-instruction batch still yields two results. -/
theorem c8_insufficient_buying_power_skips_witness :
    openSinglePosition ⟨"AAA", TradeSide.buy, 600⟩ 500
        (BrokerOpenBehavior.opens none) =
      (⟨"AAA", ExecStatus.skipped, some SkipReason.insufficientBuyingPower⟩,
        500, some SkipReason.insufficientBuyingPower, false) ∧
    (openAllPositions
        [⟨"AAA", TradeSide.buy, 600⟩, ⟨"BBB", TradeSide.sell, 100⟩] 500
        (fun _ => BrokerOpenBehavior.opens none)).1.length = 2 :=
  ⟨(c8_insufficient_buying_power_skips ⟨"AAA", TradeSide.buy, 600⟩ 500
      (BrokerOpenBehavior.opens none) (by norm_num)).1,
    (c8_insufficient_buying_power_skips ⟨"AAA", TradeSide.buy, 600⟩ 500
      (BrokerOpenBehavior.opens none) (by norm_num)).2 _ _ _⟩

/-- C9: in the service rebalance path, the close instructions are exactly one
close per ticker of the prior portfolio snapshot, whatever the per-position
actions of the snapshot are (the classifier plays no role in the path), and
the open instructions are exactly one open per row of the newly constructed
target portfolio (BUY for LONG rows, SELL for SHORT rows). -/
theorem c9_rebalance_closes_prior_and_opens_target
    (snapshot optimalPortfolio : List Position)
    (h : (snapshot.map Position.ticker).Nodup) :
    getPriorPortfolioTickers
        (PriorPortfolioFetch.response 200 (some snapshot)) =
      some (snapshot.map Position.ticker) ∧
    ((getPositions (snapshot.map Position.ticker) optimalPortfolio).2.map
      CloseInstruction.ticker) = snapshot.map Position.ticker ∧
    (getPositions (snapshot.map Position.ticker) optimalPortfolio).1 =
      optimalPortfolio.map fun r =>
        ⟨r.ticker,
          if r.side = Side.long then TradeSide.buy else TradeSide.sell,
          r.dollarAmount⟩ := by
  refine ⟨?_, ?_, rfl⟩
  · simp only [getPriorPortfolioTickers]
    norm_num
    exact List.dedup_eq_self.mpr h
  · unfold getPositions
    simp [List.map_map]

/-- Witness for C9: a snapshot holding a maintained and a PDT-locked position
still has both tickers closed, and a one-row target portfolio yields one
open. -/
theorem c9_rebalance_closes_prior_and_opens_target_witness :
    getPriorPortfolioTickers (PriorPortfolioFetch.response 200 (some
        [⟨"AAA", 0, Side.long, 100, Action.maintainPosition⟩,
          ⟨"BBB", 0, Side.short, 100, Action.pdtLocked⟩])) =
      some ["AAA", "BBB"] ∧
    ((getPositions ["AAA", "BBB"]
        [⟨"CCC", 0, Side.long, 250, Action.openPosition⟩]).2.map
      CloseInstruction.ticker) = ["AAA", "BBB"] ∧
    (getPositions ["AAA", "BBB"]
        [⟨"CCC", 0, Side.long, 250, Action.openPosition⟩]).1 =
      [⟨"CCC", TradeSide.buy, 250⟩] :=
  c9_rebalance_closes_prior_and_opens_target
    [⟨"AAA", 0, Side.long, 100, Action.maintainPosition⟩,
      ⟨"BBB", 0, Side.short, 100, Action.pdtLocked⟩]
    [⟨"CCC", 0, Side.long, 250, Action.openPosition⟩] (by decide)

/-- Counterexample for C6: the batch of quantile_50 values
[-1e-12, 0, 1e-12] has sample standard deviation exactly 1e-12, a positive
number below 1e-8; the `or 1e-8` of the source replaces only a None or 0.0
standard deviation, so the z-score denominator here is 1e-12, smaller than
the 1e-8 the claim says it can never fall below, and the resulting z-score of
the last row is 1 rather than the 1e-4 a floored denominator would give. -/
theorem c6_zscore_not_floored_counterexample :
    IsSampleStd [-mkRat 1 (10 ^ 12), 0, mkRat 1 (10 ^ 12)]
      (mkRat 1 (10 ^ 12)) ∧
    0 < mkRat 1 (10 ^ 12) ∧
    stdOrFloor [-mkRat 1 (10 ^ 12), 0, mkRat 1 (10 ^ 12)]
        (mkRat 1 (10 ^ 12)) <
      mkRat 1 (10 ^ 8) ∧
    zScoreReturn [-mkRat 1 (10 ^ 12), 0, mkRat 1 (10 ^ 12)]
        (mkRat 1 (10 ^ 12)) (mkRat 1 (10 ^ 12)) = 1 := by
  refine ⟨⟨by norm_num, ?_⟩, by norm_num, ?_, ?_⟩
  · norm_num [sampleVariance, sampleMean]
  · norm_num [stdOrFloor]
  · norm_num [zScoreReturn, stdOrFloor, sampleMean]

/-- C6 amended: z_score_return equals (quantile_50 minus the batch mean)
divided by a denominator that is the batch sample standard deviation, except
that a missing standard deviation (batch of fewer than 2 rows) or one equal
to exactly zero is replaced by 1e-8; a tiny positive standard deviation is
used as-is (the denominator is not floored), and for a batch of size 1 the
z-score is exactly 0. -/
theorem c6_zscore_denominator_amended (xs : List ℚ) (s x : ℚ)
    (h : IsSampleStd xs s) :
    zScoreReturn xs s x = (x - sampleMean xs) / stdOrFloor xs s ∧
    (2 ≤ xs.length → s ≠ 0 → stdOrFloor xs s = s) ∧
    (xs.length < 2 ∨ s = 0 → stdOrFloor xs s = mkRat 1 (10 ^ 8)) ∧
    (xs = [x] → zScoreReturn xs s x = 0) := by
  refine ⟨rfl, fun h2 hs => ?_, fun hc => if_pos hc, fun hx => ?_⟩
  · unfold stdOrFloor
    rw [if_neg]
    push_neg
    exact ⟨by omega, hs⟩
  · subst hx
    unfold zScoreReturn sampleMean
    simp

/-- Witness for C6 amended: the size-1 batch [3] has a null sample standard
deviation (characterized as 0 here) and a z-score of exactly 0. -/
theorem c6_zscore_denominator_amended_witness :
    IsSampleStd [(3 : ℚ)] 0 ∧ zScoreReturn [(3 : ℚ)] 0 3 = 0 :=
  ⟨⟨le_refl 0, by norm_num [sampleVariance, sampleMean]⟩,
    (c6_zscore_denominator_amended [(3 : ℚ)] 0 3
      ⟨le_refl 0, by norm_num [sampleVariance, sampleMean]⟩).2.2.2 rfl⟩

/-- C4: in ticker-list-exclusion mode, when fewer than
REQUIRED_PORTFOLIO_SIZE = 20 candidates remain after excluding
prior-portfolio tickers and high-uncertainty tickers, the constructor fails
with InsufficientPredictions stating the actual available count and the
required count of 20, instead of building a partial portfolio. -/
theorem c4_insufficient_predictions_raises
    (currentPredictions : List RankedPrediction)
    (priorPortfolioTickers : List String) (maximumCapital nowTs : ℚ)
    (h : (currentPredictions.filter fun p =>
        p.ticker ∉ priorPortfolioTickers ∧
          ¬UNCERTAINTY_THRESHOLD < p.interQuartileRange).length <
      REQUIRED_PORTFOLIO_SIZE) :
    createOptimalPortfolioFromTickers currentPredictions
        priorPortfolioTickers maximumCapital nowTs =
      Except.error (PortfolioError.insufficientPredictions
        ((currentPredictions.filter fun p =>
          p.ticker ∉ priorPortfolioTickers ∧
            ¬UNCERTAINTY_THRESHOLD < p.interQuartileRange).length)
        REQUIRED_PORTFOLIO_SIZE) := by
  unfold createOptimalPortfolioFromTickers
  rw [if_pos h]

/-- Witness for C4: of three candidates, one is a prior-portfolio ticker and
one is high-uncertainty, leaving 1 available, so the constructor raises
InsufficientPredictions with counts 1 and 20. -/
theorem c4_insufficient_predictions_raises_witness :
    createOptimalPortfolioFromTickers
        [⟨"AAA", 0, 0, 0, 0, 0, 5⟩, ⟨"BBB", 0, 0, 1, 0, 1, 4⟩,
          ⟨"CCC", 0, 0, 0, 0, 0, 3⟩]
        ["AAA"] 10000 0 =
      Except.error (PortfolioError.insufficientPredictions 1 20) := by
  rw [c4_insufficient_predictions_raises _ _ _ _ (by decide)]
  rfl

/-- Counterexample for C7: a 500 response from the portfolio store is not
fatal; `get_prior_portfolio_tickers` swallows any status of 400 or above into
an empty ticker list, and the cycle then proceeds to construct a portfolio
(the outcome is neither the server error the claim requires nor a
no-content). -/
theorem c7_http_error_status_not_fatal_counterexample :
    getPriorPortfolioTickers (PriorPortfolioFetch.response 500
        (some [⟨"AAA", 0, Side.long, 100, Action.openPosition⟩])) =
      some [] ∧
    preparePortfolioData (some ⟨10000, 10000⟩) (some predictionsTwenty)
        (PriorPortfolioFetch.response 500
          (some [⟨"AAA", 0, Side.long, 100, Action.openPosition⟩])) 0 ≠
      PrepareOutcome.serverError ∧
    preparePortfolioData (some ⟨10000, 10000⟩) (some predictionsTwenty)
        (PriorPortfolioFetch.response 500
          (some [⟨"AAA", 0, Side.long, 100, Action.openPosition⟩])) 0 ≠
      PrepareOutcome.noContent := by
  refine ⟨by decide, by decide, by decide⟩

/-- C7 amended: only a transport-level failure of the prior-portfolio fetch
(an exception the function does not catch) is fatal to the cycle with a
server error and no construction attempted; an HTTP error status (400 or
above, including 5xx) instead yields an empty prior-ticker list, after which
the cycle behaves exactly as if an empty prior portfolio had been fetched
successfully, proceeding to construction. -/
theorem c7_upstream_fetch_failure_amended (account : Option AlpacaAccount)
    (currentPredictions : Option (List RankedPrediction)) (nowTs : ℚ) :
    preparePortfolioData account currentPredictions
        PriorPortfolioFetch.transportFailure nowTs =
      PrepareOutcome.serverError ∧
    ∀ (statusCode : ℕ) (body : Option (List Position)), 400 ≤ statusCode →
      getPriorPortfolioTickers
          (PriorPortfolioFetch.response statusCode body) = some [] ∧
      preparePortfolioData account currentPredictions
          (PriorPortfolioFetch.response statusCode body) nowTs =
        preparePortfolioData account currentPredictions
          (PriorPortfolioFetch.response 200 (some [])) nowTs := by
  have htf :
      preparePortfolioData account currentPredictions
        PriorPortfolioFetch.transportFailure nowTs =
      PrepareOutcome.serverError := by
    cases account with
    | none => rfl
    | some a =>
      cases currentPredictions with
      | none => rfl
      | some ps => rfl
  refine ⟨htf, fun statusCode body hsc => ?_⟩
  have hg : getPriorPortfolioTickers
      (PriorPortfolioFetch.response statusCode body) = some [] := by
    simp only [getPriorPortfolioTickers]
    by_cases h404 : statusCode = 404
    · rw [if_pos h404]
    · rw [if_neg h404, if_pos hsc]
  have hg2 : getPriorPortfolioTickers
      (PriorPortfolioFetch.response 200 (some [])) = some [] := by
    simp [getPriorPortfolioTickers]
  refine ⟨hg, ?_⟩
  cases account with
  | none => rfl
  | some a =>
    cases currentPredictions with
    | none => rfl
    | some ps => simp only [preparePortfolioData, hg, hg2]

/-- Witness for C7 amended: a transport failure with account and predictions
present is a server error, and a 503 from the portfolio store yields the
empty ticker list and the same outcome as a successfully fetched empty
portfolio. -/
theorem c7_upstream_fetch_failure_amended_witness :
    preparePortfolioData (some ⟨10000, 10000⟩) (some predictionsTwenty)
        PriorPortfolioFetch.transportFailure 0 =
      PrepareOutcome.serverError ∧
    getPriorPortfolioTickers (PriorPortfolioFetch.response 503 none) =
      some [] ∧
    preparePortfolioData (some ⟨10000, 10000⟩) (some predictionsTwenty)
        (PriorPortfolioFetch.response 503 none) 0 =
      preparePortfolioData (some ⟨10000, 10000⟩) (some predictionsTwenty)
        (PriorPortfolioFetch.response 200 (some [])) 0 :=
  ⟨(c7_upstream_fetch_failure_amended (some ⟨10000, 10000⟩)
      (some predictionsTwenty) 0).1,
    ((c7_upstream_fetch_failure_amended (some ⟨10000, 10000⟩)
      (some predictionsTwenty) 0).2 503 none (by norm_num)).1,
    ((c7_upstream_fetch_failure_amended (some ⟨10000, 10000⟩)
      (some predictionsTwenty) 0).2 503 none (by norm_num)).2⟩

/-- C10: the rebalancing force-close matches positions by ticker alone, not
by (ticker, side): any row of the classified portfolio whose ticker appears
in the selected best-performing-short ticker list is set to CLOSE_POSITION in
the output, whatever its side or current action (in particular a LONG
position sharing a selected short ticker), and symmetrically for the
best-performing-long selection. -/
theorem c10_force_close_matches_by_ticker_only (pf : List PortfolioRow)
    (r : PortfolioRow) (h : r ∈ pf) :
    (closedCount Side.short pf < closedCount Side.long pf →
      r.ticker ∈ bestShortTickers pf
        (closedCount Side.long pf - closedCount Side.short pf) →
      { r with action := Action.closePosition } ∈ rebalance pf) ∧
    (closedCount Side.long pf < closedCount Side.short pf →
      r.ticker ∈ bestLongTickers pf
        (closedCount Side.short pf - closedCount Side.long pf) →
      { r with action := Action.closePosition } ∈ rebalance pf) := by
  constructor
  · intro himb hsel
    simp only [rebalance]
    rw [if_pos himb, if_neg (List.ne_nil_of_mem hsel)]
    unfold forceCloseByTicker
    exact List.mem_map.mpr ⟨r, h, by rw [if_pos hsel]⟩
  · intro himb hsel
    simp only [rebalance]
    rw [if_neg (lt_asymm himb), if_pos himb,
      if_neg (List.ne_nil_of_mem hsel)]
    unfold forceCloseByTicker
    exact List.mem_map.mpr ⟨r, h, by rw [if_pos hsel]⟩

/-- Witness for C10: the ticker SS is selected among the best-performing
shorts, and the LONG position with the same ticker SS is also set to
CLOSE_POSITION by the rebalancing overwrite. -/
theorem c10_force_close_matches_by_ticker_only_witness :
    (⟨"SS", 1, Side.long, 100, Action.closePosition, -1, 1, 5⟩ :
        PortfolioRow) ∈
      rebalance
        [⟨"LL", 0, Side.long, 100, Action.closePosition, -1, 1, 0⟩,
          ⟨"SS", 0, Side.short, 100, Action.unspecified, -1, 1, 0⟩,
          ⟨"SS", 1, Side.long, 100, Action.unspecified, -1, 1, 5⟩] :=
  (c10_force_close_matches_by_ticker_only
    [⟨"LL", 0, Side.long, 100, Action.closePosition, -1, 1, 0⟩,
      ⟨"SS", 0, Side.short, 100, Action.unspecified, -1, 1, 0⟩,
      ⟨"SS", 1, Side.long, 100, Action.unspecified, -1, 1, 5⟩]
    ⟨"SS", 1, Side.long, 100, Action.unspecified, -1, 1, 5⟩
    (by decide)).1 (by decide) (by decide)

/-- Eligible rows are rows of the portfolio. -/
theorem mem_of_mem_eligibleRows {s : Side} {pf : List PortfolioRow}
    {e : PortfolioRow} (he : e ∈ eligibleRows s pf) : e ∈ pf :=
  List.mem_of_mem_filter he

/-- An eligible row has the requested side and is neither closed nor PDT
locked. -/
theorem eligibleRows_props {s : Side} {pf : List PortfolioRow}
    {e : PortfolioRow} (he : e ∈ eligibleRows s pf) :
    e.side = s ∧ e.action ≠ Action.closePosition ∧
      e.action ≠ Action.pdtLocked := by
  have h := (List.mem_filter.mp he).2
  exact of_decide_eq_true h

/-- When the portfolio has pairwise distinct tickers, rows are determined by
their ticker. -/
theorem row_eq_of_ticker_eq {pf : List PortfolioRow}
    (hnd : (pf.map PortfolioRow.ticker).Nodup) {r e : PortfolioRow}
    (hr : r ∈ pf) (he : e ∈ pf) (ht : e.ticker = r.ticker) : e = r :=
  List.inj_on_of_nodup_map hnd he hr ht

/-- Every selected ticker is the ticker of some eligible row. -/
theorem selectBestTickers_exists_eligible (s : Side)
    (rel : PortfolioRow → PortfolioRow → Prop) [DecidableRel rel]
    {pf : List PortfolioRow} {n : ℕ} {t : String}
    (h : t ∈ selectBestTickers s rel pf n) :
    ∃ e ∈ eligibleRows s pf, e.ticker = t := by
  unfold selectBestTickers at h
  obtain ⟨e, hetake, rfl⟩ := List.mem_map.mp h
  exact ⟨e, (List.mem_insertionSort rel).mp (List.take_subset _ _ hetake), rfl⟩

/-- Selected tickers are tickers of the portfolio. -/
theorem selectBestTickers_subset (s : Side)
    (rel : PortfolioRow → PortfolioRow → Prop) [DecidableRel rel]
    {pf : List PortfolioRow} {n : ℕ} :
    ∀ t ∈ selectBestTickers s rel pf n, t ∈ pf.map PortfolioRow.ticker := by
  intro t ht
  obtain ⟨e, he, rfl⟩ := selectBestTickers_exists_eligible s rel ht
  exact List.mem_map_of_mem _ (mem_of_mem_eligibleRows he)

/-- On a distinct-ticker portfolio the selected ticker list has no
duplicates. -/
theorem selectBestTickers_nodup (s : Side)
    (rel : PortfolioRow → PortfolioRow → Prop) [DecidableRel rel]
    {pf : List PortfolioRow} (n : ℕ)
    (hnd : (pf.map PortfolioRow.ticker).Nodup) :
    (selectBestTickers s rel pf n).Nodup := by
  unfold selectBestTickers
  have hE : ((eligibleRows s pf).map PortfolioRow.ticker).Nodup :=
    ((List.filter_sublist pf).map PortfolioRow.ticker).nodup hnd
  have hS : (((eligibleRows s pf).insertionSort rel).map
      PortfolioRow.ticker).Nodup :=
    (((List.perm_insertionSort rel
      (eligibleRows s pf)).map PortfolioRow.ticker).symm).nodup hE
  exact (List.Sublist.map PortfolioRow.ticker
    (List.take_sublist n _)).nodup hS

/-- The selection size is the imbalance capped by the size of the eligible
pool. -/
theorem selectBestTickers_length (s : Side)
    (rel : PortfolioRow → PortfolioRow → Prop) [DecidableRel rel]
    (pf : List PortfolioRow) (n : ℕ) :
    (selectBestTickers s rel pf n).length =
      min n (eligibleRows s pf).length := by
  unfold selectBestTickers
  rw [List.length_map, List.length_take,
    (List.perm_insertionSort rel (eligibleRows s pf)).length_eq]

/-- On a distinct-ticker portfolio, an eligible row whose ticker is selected
is itself among the first `n` rows of the sorted eligible pool. -/
theorem mem_take_of_ticker_mem_selectBestTickers (s : Side)
    (rel : PortfolioRow → PortfolioRow → Prop) [DecidableRel rel]
    {pf : List PortfolioRow} {n : ℕ} {a : PortfolioRow}
    (hnd : (pf.map PortfolioRow.ticker).Nodup)
    (ha : a ∈ eligibleRows s pf)
    (ht : a.ticker ∈ selectBestTickers s rel pf n) :
    a ∈ ((eligibleRows s pf).insertionSort rel).take n := by
  unfold selectBestTickers at ht
  obtain ⟨e, hetake, hte⟩ := List.mem_map.mp ht
  have he : e ∈ eligibleRows s pf :=
    (List.mem_insertionSort rel).mp (List.take_subset _ _ hetake)
  have : e = a := row_eq_of_ticker_eq hnd (mem_of_mem_eligibleRows ha)
    (mem_of_mem_eligibleRows he) hte
  rwa [this] at hetake

/-- On a distinct-ticker portfolio the selection takes the best of the
eligible pool: every selected eligible row is related (by the sort order used
for the selection) to every unselected eligible row. -/
theorem selectBestTickers_best (s : Side)
    (rel : PortfolioRow → PortfolioRow → Prop) [DecidableRel rel]
    [IsTotal PortfolioRow rel] [IsTrans PortfolioRow rel]
    {pf : List PortfolioRow} {n : ℕ}
    (hnd : (pf.map PortfolioRow.ticker).Nodup) :
    ∀ a ∈ eligibleRows s pf, a.ticker ∈ selectBestTickers s rel pf n →
    ∀ b ∈ eligibleRows s pf, b.ticker ∉ selectBestTickers s rel pf n →
    rel a b := by
  intro a ha hat b hb hbt
  have hA : a ∈ ((eligibleRows s pf).insertionSort rel).take n :=
    mem_take_of_ticker_mem_selectBestTickers s rel hnd ha hat
  have hbsort : b ∈ (eligibleRows s pf).insertionSort rel :=
    (List.mem_insertionSort rel).mpr hb
  have hbtake : b ∉ ((eligibleRows s pf).insertionSort rel).take n := by
    intro hmem
    exact hbt (List.mem_map_of_mem _ hmem)
  have hbsplit : b ∈ ((eligibleRows s pf).insertionSort rel).take n ++
      ((eligibleRows s pf).insertionSort rel).drop n := by
    rw [List.take_append_drop]
    exact hbsort
  have hbdrop : b ∈ ((eligibleRows s pf).insertionSort rel).drop n := by
    rcases List.mem_append.mp hbsplit with hmem | hmem
    · exact absurd hmem hbtake
    · exact hmem
  have hsorted : List.Sorted rel
      (((eligibleRows s pf).insertionSort rel).take n ++
        ((eligibleRows s pf).insertionSort rel).drop n) := by
    rw [List.take_append_drop]
    exact List.sorted_insertionSort rel (eligibleRows s pf)
  exact (List.pairwise_append.mp hsorted).2.2 a hA b hbdrop

/-- Head-peeling equation for the per-side close count. -/
theorem closedCount_cons (s : Side) (r : PortfolioRow)
    (rest : List PortfolioRow) :
    closedCount s (r :: rest) =
      (if r.side = s ∧ r.action = Action.closePosition then 1 else 0) +
        closedCount s rest := by
  unfold closedCount
  rw [List.filter_cons]
  by_cases h : r.side = s ∧ r.action = Action.closePosition
  · simp [h, Nat.add_comm]
  · simp [h]

/-- Head-peeling equation for the length of a filter. -/
theorem length_filter_cons {α : Type} (p : α → Bool) (a : α) (l : List α) :
    (List.filter p (a :: l)).length =
      (if p a then 1 else 0) + (List.filter p l).length := by
  rw [List.filter_cons]
  by_cases h : p a
  · simp [h, Nat.add_comm]
  · simp [h]

/-- Closing by ticker adds to one side's close count exactly the rows of that
side whose ticker is targeted and which were not already being closed. -/
theorem closedCount_forceCloseByTicker (s : Side) (S : List String)
    (pf : List PortfolioRow) :
    closedCount s (forceCloseByTicker S pf) =
      closedCount s pf +
        (pf.filter fun r =>
          r.ticker ∈ S ∧ r.side = s ∧
            r.action ≠ Action.closePosition).length := by
  induction pf with
  | nil => rfl
  | cons r rest ih =>
    have hstep : forceCloseByTicker S (r :: rest) =
        (if r.ticker ∈ S then { r with action := Action.closePosition }
          else r) :: forceCloseByTicker S rest := rfl
    rw [hstep, closedCount_cons, closedCount_cons, length_filter_cons, ih]
    by_cases hS : r.ticker ∈ S <;> by_cases hside : r.side = s <;>
      by_cases hact : r.action = Action.closePosition <;>
      simp [hS, hside, hact] <;> omega

/-- Counting the elements of a duplicate-free list that belong to a
duplicate-free sublist-of-members gives that list's length. -/
theorem length_filter_mem_of_nodup {β : Type} [DecidableEq β]
    {l S : List β} (hl : l.Nodup) (hS : S.Nodup)
    (hsub : ∀ t ∈ S, t ∈ l) :
    (l.filter fun t => t ∈ S).length = S.length := by
  have hperm : (l.filter fun t => t ∈ S).Perm S := by
    rw [List.perm_ext_iff_of_nodup (hl.filter _) hS]
    intro a
    constructor
    · intro haf
      exact of_decide_eq_true (List.mem_filter.mp haf).2
    · intro ha
      exact List.mem_filter.mpr ⟨hsub a ha, decide_eq_true ha⟩
  exact hperm.length_eq

/-- On a distinct-ticker portfolio, the rows matched by the force-close
overwrite that were not already being closed are exactly the selected rows:
one per selected ticker. -/
theorem filter_selected_length (s : Side)
    (rel : PortfolioRow → PortfolioRow → Prop) [DecidableRel rel]
    {pf : List PortfolioRow} {n : ℕ}
    (hnd : (pf.map PortfolioRow.ticker).Nodup) :
    (pf.filter fun r =>
      r.ticker ∈ selectBestTickers s rel pf n ∧ r.side = s ∧
        r.action ≠ Action.closePosition).length =
    (selectBestTickers s rel pf n).length := by
  have hcong : ∀ r ∈ pf,
      (decide (r.ticker ∈ selectBestTickers s rel pf n ∧ r.side = s ∧
        r.action ≠ Action.closePosition)) =
      (decide (r.ticker ∈ selectBestTickers s rel pf n)) := by
    intro r hr
    by_cases hrT : r.ticker ∈ selectBestTickers s rel pf n
    · obtain ⟨e, he, het⟩ := selectBestTickers_exists_eligible s rel hrT
      have heq : e = r := row_eq_of_ticker_eq hnd hr
        (mem_of_mem_eligibleRows he) het
      subst heq
      have hp := eligibleRows_props he
      simp [hrT, hp.1, hp.2.1]
    · simp [hrT]
  rw [List.filter_congr hcong]
  have hfm : (pf.map PortfolioRow.ticker).filter
        (fun t => t ∈ selectBestTickers s rel pf n) =
      (pf.filter fun r =>
        r.ticker ∈ selectBestTickers s rel pf n).map PortfolioRow.ticker := by
    rw [List.filter_map]
    rfl
  calc (pf.filter fun r =>
        r.ticker ∈ selectBestTickers s rel pf n).length
      = ((pf.filter fun r =>
          r.ticker ∈ selectBestTickers s rel pf n).map
            PortfolioRow.ticker).length := (List.length_map _ _).symm
    _ = ((pf.map PortfolioRow.ticker).filter
          (fun t => t ∈ selectBestTickers s rel pf n)).length := by
        rw [hfm]
    _ = (selectBestTickers s rel pf n).length :=
        length_filter_mem_of_nodup hnd
          (selectBestTickers_nodup s rel n hnd)
          (selectBestTickers_subset s rel)

/-- Rebalancing never drops or adds rows. -/
theorem rebalance_length (pf : List PortfolioRow) :
    (rebalance pf).length = pf.length := by
  simp only [rebalance]
  split_ifs <;> simp [forceCloseByTicker]

/-- Bridging equation for the short-side selection. -/
theorem bestShortTickers_def (pf : List PortfolioRow) (n : ℕ) :
    bestShortTickers pf n = selectBestTickers Side.short csrAsc pf n := rfl

/-- Bridging equation for the long-side selection. -/
theorem bestLongTickers_def (pf : List PortfolioRow) (n : ℕ) :
    bestLongTickers pf n = selectBestTickers Side.long csrDesc pf n := rfl

/-- Counterexample for C5: a position opened the same UTC day is marked
PDT_LOCKED by the action column (first conjunct); classification keeps it
locked (second conjunct); but the rebalancing overwrite matches by ticker
alone, and because the locked short shares the ticker SS with the eligible
short selected for force-closing, the locked position is reassigned
CLOSE_POSITION (third conjunct), contradicting the claim that a PDT_LOCKED
position is never reassigned. -/
theorem c5_pdt_locked_reassigned_counterexample :
    (addPortfolioActionColumn
        [⟨"SS", 86400, Side.short, 100, Action.openPosition⟩] 86450).map
      Position.action = [Action.pdtLocked] ∧
    (classify
        [⟨"LL", 0, Side.long, 100, Action.unspecified, -1, 1, -2⟩,
          ⟨"SS", 0, Side.short, 100, Action.unspecified, -1, 1, 0⟩,
          ⟨"SS", 86400, Side.short, 100, Action.pdtLocked, -1, 1, 0⟩]).map
      PortfolioRow.action =
      [Action.closePosition, Action.unspecified, Action.pdtLocked] ∧
    (classifyAndRebalance
        [⟨"LL", 0, Side.long, 100, Action.unspecified, -1, 1, -2⟩,
          ⟨"SS", 0, Side.short, 100, Action.unspecified, -1, 1, 0⟩,
          ⟨"SS", 86400, Side.short, 100, Action.pdtLocked, -1, 1, 0⟩]).map
      PortfolioRow.action =
      [Action.closePosition, Action.closePosition, Action.closePosition] := by
  refine ⟨?_, by decide, by decide⟩
  · simp only [addPortfolioActionColumn, List.map_map, List.map_cons,
      List.map_nil, Function.comp]
    norm_num [utcDay]

/-- C5 amended: the action column marks exactly the positions opened on the
current UTC calendar day as PDT_LOCKED and all others UNSPECIFIED; the
classification stage never reassigns a PDT_LOCKED position; and the
rebalancing stage never reassigns a PDT_LOCKED position provided the
portfolio's tickers are pairwise distinct (with a duplicated ticker, the
ticker-based force-close overwrite can reach a locked position, as the
counterexample shows). -/
theorem c5_pdt_locked_amended :
    (∀ (pf : List Position) (nowTs : ℚ),
      (addPortfolioActionColumn pf nowTs).map Position.action =
        pf.map fun p =>
          if utcDay p.timestamp = utcDay nowTs then Action.pdtLocked
          else Action.unspecified) ∧
    (∀ r : PortfolioRow, r.action = Action.pdtLocked →
      classifyRow r = Action.pdtLocked) ∧
    (∀ cls : List PortfolioRow, (cls.map PortfolioRow.ticker).Nodup →
      ∀ r ∈ cls, r.action = Action.pdtLocked → r ∈ rebalance cls) := by
  refine ⟨?_, ?_, ?_⟩
  · intro pf nowTs
    unfold addPortfolioActionColumn
    rw [List.map_map]
    rfl
  · intro r hr
    unfold classifyRow
    rw [if_pos hr]
  · intro cls hnd r hr hlock
    have hnsS : r.ticker ∉ bestShortTickers cls
        (closedCount Side.long cls - closedCount Side.short cls) := by
      rw [bestShortTickers_def]
      intro hmem
      obtain ⟨e, he, het⟩ :=
        selectBestTickers_exists_eligible Side.short csrAsc hmem
      have heq : e = r :=
        row_eq_of_ticker_eq hnd hr (mem_of_mem_eligibleRows he) het
      rw [heq] at he
      exact (eligibleRows_props he).2.2 hlock
    have hnsL : r.ticker ∉ bestLongTickers cls
        (closedCount Side.short cls - closedCount Side.long cls) := by
      rw [bestLongTickers_def]
      intro hmem
      obtain ⟨e, he, het⟩ :=
        selectBestTickers_exists_eligible Side.long csrDesc hmem
      have heq : e = r :=
        row_eq_of_ticker_eq hnd hr (mem_of_mem_eligibleRows he) het
      rw [heq] at he
      exact (eligibleRows_props he).2.2 hlock
    simp only [rebalance]
    split_ifs
    · exact hr
    · unfold forceCloseByTicker
      exact List.mem_map.mpr ⟨r, hr, by rw [if_neg hnsS]⟩
    · exact hr
    · unfold forceCloseByTicker
      exact List.mem_map.mpr ⟨r, hr, by rw [if_neg hnsL]⟩
    · exact hr

/-- Witness for C5 amended: a PDT_LOCKED long is kept PDT_LOCKED by the
classification chain, and on a distinct-ticker portfolio with one long being
closed it survives the rebalancing untouched. -/
theorem c5_pdt_locked_amended_witness :
    classifyRow ⟨"AA", 0, Side.long, 100, Action.pdtLocked, -1, 1, -2⟩ =
      Action.pdtLocked ∧
    (⟨"AA", 0, Side.long, 100, Action.pdtLocked, -1, 1, -2⟩ :
        PortfolioRow) ∈
      rebalance
        [⟨"AA", 0, Side.long, 100, Action.pdtLocked, -1, 1, -2⟩,
          ⟨"BB", 0, Side.long, 100, Action.closePosition, -1, 1, 0⟩,
          ⟨"CC", 0, Side.short, 100, Action.unspecified, -1, 1, 0⟩] :=
  ⟨c5_pdt_locked_amended.2.1 _ rfl,
    c5_pdt_locked_amended.2.2 _ (by decide) _ (by decide) rfl⟩

/-- Counterexample for C3: a classified portfolio with one long being closed
(imbalance 1), no short being closed, and two eligible shorts sharing the
ticker SS.  The claim requires exactly min(1, 2) = 1 additional short to be
reassigned, but the ticker-based overwrite closes both SS rows: the short
close count goes from 0 to 2. -/
theorem c3_rebalancing_count_counterexample :
    closedCount Side.short
      [⟨"LL", 0, Side.long, 100, Action.closePosition, -1, 1, 0⟩,
        ⟨"SS", 0, Side.short, 100, Action.unspecified, -1, 1, 0⟩,
        ⟨"SS", 86400, Side.short, 100, Action.unspecified, -1, 1, 5⟩] = 0 ∧
    closedCount Side.long
      [⟨"LL", 0, Side.long, 100, Action.closePosition, -1, 1, 0⟩,
        ⟨"SS", 0, Side.short, 100, Action.unspecified, -1, 1, 0⟩,
        ⟨"SS", 86400, Side.short, 100, Action.unspecified, -1, 1, 5⟩] = 1 ∧
    (eligibleRows Side.short
      [⟨"LL", 0, Side.long, 100, Action.closePosition, -1, 1, 0⟩,
        ⟨"SS", 0, Side.short, 100, Action.unspecified, -1, 1, 0⟩,
        ⟨"SS", 86400, Side.short, 100, Action.unspecified, -1, 1, 5⟩]).length
      = 2 ∧
    closedCount Side.short
      (rebalance
        [⟨"LL", 0, Side.long, 100, Action.closePosition, -1, 1, 0⟩,
          ⟨"SS", 0, Side.short, 100, Action.unspecified, -1, 1, 0⟩,
          ⟨"SS", 86400, Side.short, 100, Action.unspecified, -1, 1, 5⟩]) =
      2 := by
  refine ⟨by decide, by decide, by decide, by decide⟩

/-- C3 amended: on a classified portfolio whose tickers are pairwise
distinct, when the close counts differ by N the rebalancing reassigns
CLOSE_POSITION to exactly min(N, eligible) additional positions of the
deficient side, chosen from the eligible pool (neither closed nor PDT
locked) as its best performers (lowest cumulative_simple_return among
shorts, highest among longs); when fewer than N are eligible all of them are
closed; no row is dropped or added.  Without the distinct-ticker hypothesis
the count can exceed min(N, eligible), as the counterexample shows. -/
theorem c3_rebalancing_equalizer_amended (pf : List PortfolioRow)
    (hnd : (pf.map PortfolioRow.ticker).Nodup) :
    (rebalance pf).length = pf.length ∧
    (closedCount Side.short pf < closedCount Side.long pf →
      closedCount Side.short (rebalance pf) =
        closedCount Side.short pf +
          min (closedCount Side.long pf - closedCount Side.short pf)
            (eligibleRows Side.short pf).length ∧
      (∀ t ∈ bestShortTickers pf
          (closedCount Side.long pf - closedCount Side.short pf),
        ∃ e ∈ eligibleRows Side.short pf, e.ticker = t) ∧
      (∀ a ∈ eligibleRows Side.short pf,
        a.ticker ∈ bestShortTickers pf
          (closedCount Side.long pf - closedCount Side.short pf) →
        ∀ b ∈ eligibleRows Side.short pf,
        b.ticker ∉ bestShortTickers pf
          (closedCount Side.long pf - closedCount Side.short pf) →
        a.cumulativeSimpleReturn ≤ b.cumulativeSimpleReturn)) ∧
    (closedCount Side.long pf < closedCount Side.short pf →
      closedCount Side.long (rebalance pf) =
        closedCount Side.long pf +
          min (closedCount Side.short pf - closedCount Side.long pf)
            (eligibleRows Side.long pf).length ∧
      (∀ t ∈ bestLongTickers pf
          (closedCount Side.short pf - closedCount Side.long pf),
        ∃ e ∈ eligibleRows Side.long pf, e.ticker = t) ∧
      (∀ a ∈ eligibleRows Side.long pf,
        a.ticker ∈ bestLongTickers pf
          (closedCount Side.short pf - closedCount Side.long pf) →
        ∀ b ∈ eligibleRows Side.long pf,
        b.ticker ∉ bestLongTickers pf
          (closedCount Side.short pf - closedCount Side.long pf) →
        b.cumulativeSimpleReturn ≤ a.cumulativeSimpleReturn)) := by
  refine ⟨rebalance_length pf, fun himb => ⟨?_, ?_, ?_⟩,
    fun himb => ⟨?_, ?_, ?_⟩⟩
  · simp only [rebalance]
    rw [if_pos himb]
    by_cases hT : bestShortTickers pf
        (closedCount Side.long pf - closedCount Side.short pf) = []
    · rw [if_pos hT]
      have hlen := selectBestTickers_length Side.short csrAsc pf
        (closedCount Side.long pf - closedCount Side.short pf)
      rw [← bestShortTickers_def, hT, List.length_nil] at hlen
      omega
    · rw [if_neg hT, closedCount_forceCloseByTicker, bestShortTickers_def,
        filter_selected_length Side.short csrAsc hnd,
        selectBestTickers_length]
  · intro t ht
    rw [bestShortTickers_def] at ht
    exact selectBestTickers_exists_eligible Side.short csrAsc ht
  · intro a ha hat b hb hbt
    rw [bestShortTickers_def] at hat hbt
    exact selectBestTickers_best Side.short csrAsc hnd a ha hat b hb hbt
  · simp only [rebalance]
    rw [if_neg (lt_asymm himb), if_pos himb]
    by_cases hT : bestLongTickers pf
        (closedCount Side.short pf - closedCount Side.long pf) = []
    · rw [if_pos hT]
      have hlen := selectBestTickers_length Side.long csrDesc pf
        (closedCount Side.short pf - closedCount Side.long pf)
      rw [← bestLongTickers_def, hT, List.length_nil] at hlen
      omega
    · rw [if_neg hT, closedCount_forceCloseByTicker, bestLongTickers_def,
        filter_selected_length Side.long csrDesc hnd,
        selectBestTickers_length]
  · intro t ht
    rw [bestLongTickers_def] at ht
    exact selectBestTickers_exists_eligible Side.long csrDesc ht
  · intro a ha hat b hb hbt
    rw [bestLongTickers_def] at hat hbt
    exact selectBestTickers_best Side.long csrDesc hnd a ha hat b hb hbt

/-- Witness for C3 amended: distinct tickers, one long being closed, two
eligible shorts; the rebalanced short close count is exactly
0 + min(1, 2) = 1. -/
theorem c3_rebalancing_equalizer_amended_witness :
    closedCount Side.short
      (rebalance
        [⟨"LA", 0, Side.long, 100, Action.closePosition, -1, 1, 0⟩,
          ⟨"SA", 0, Side.short, 100, Action.unspecified, -1, 1, 0⟩,
          ⟨"SB", 0, Side.short, 100, Action.unspecified, -1, 1, 5⟩]) =
      closedCount Side.short
        [⟨"LA", 0, Side.long, 100, Action.closePosition, -1, 1, 0⟩,
          ⟨"SA", 0, Side.short, 100, Action.unspecified, -1, 1, 0⟩,
          ⟨"SB", 0, Side.short, 100, Action.unspecified, -1, 1, 5⟩] +
        min
          (closedCount Side.long
            [⟨"LA", 0, Side.long, 100, Action.closePosition, -1, 1, 0⟩,
              ⟨"SA", 0, Side.short, 100, Action.unspecified, -1, 1, 0⟩,
              ⟨"SB", 0, Side.short, 100, Action.unspecified, -1, 1, 5⟩] -
            closedCount Side.short
              [⟨"LA", 0, Side.long, 100, Action.closePosition, -1, 1, 0⟩,
                ⟨"SA", 0, Side.short, 100, Action.unspecified, -1, 1, 0⟩,
                ⟨"SB", 0, Side.short, 100, Action.unspecified, -1, 1, 5⟩])
          (eligibleRows Side.short
            [⟨"LA", 0, Side.long, 100, Action.closePosition, -1, 1, 0⟩,
              ⟨"SA", 0, Side.short, 100, Action.unspecified, -1, 1, 0⟩,
              ⟨"SB", 0, Side.short, 100, Action.unspecified, -1, 1, 5⟩]).length :=
  ((c3_rebalancing_equalizer_amended
    [⟨"LA", 0, Side.long, 100, Action.closePosition, -1, 1, 0⟩,
      ⟨"SA", 0, Side.short, 100, Action.unspecified, -1, 1, 0⟩,
      ⟨"SB", 0, Side.short, 100, Action.unspecified, -1, 1, 5⟩]
    (by decide)).2.1 (by decide)).1

/-- C1: for a ranked batch of 30 distinct-ticker candidates, none
high-uncertainty, constructed against an empty prior portfolio with
maximum_capital = 10000, the constructor returns exactly 20 positions: a
permutation (the output is re-sorted by ticker and side) of the first 10
ranked candidates as LONG and the last 10 as SHORT, every position opened
with dollar_amount 500, long and short totals both 5000, the first 10 having
composite scores at least those of all 20 others and the last 10 at most
those of all 20 others. -/
theorem c1_constructor_30_candidates (preds : List RankedPrediction)
    (nowTs : ℚ) (h30 : preds.length = 30)
    (hnd : (preds.map RankedPrediction.ticker).Nodup)
    (hiqr : ∀ p ∈ preds, p.interQuartileRange ≤ UNCERTAINTY_THRESHOLD)
    (hsorted : List.Sorted
      (fun a b => b.compositeScore ≤ a.compositeScore) preds) :
    ∃ out, createOptimalPortfolio preds [] 10000 nowTs = Except.ok out ∧
      out.Perm
        (((preds.take 10).map fun p =>
            (⟨p.ticker, nowTs, Side.long, 500, Action.openPosition⟩ :
              Position)) ++
          ((preds.drop 20).map fun p =>
            (⟨p.ticker, nowTs, Side.short, 500, Action.openPosition⟩ :
              Position))) ∧
      out.length = 20 ∧
      (∀ r ∈ out, r.action = Action.openPosition ∧ r.dollarAmount = 500) ∧
      ((out.filter fun r => r.side = Side.long).map
        Position.dollarAmount).sum = 5000 ∧
      ((out.filter fun r => r.side = Side.short).map
        Position.dollarAmount).sum = 5000 ∧
      (∀ p ∈ preds.take 10, ∀ q ∈ preds.drop 10,
        q.compositeScore ≤ p.compositeScore) ∧
      (∀ p ∈ preds.take 20, ∀ q ∈ preds.drop 20,
        q.compositeScore ≤ p.compositeScore) := by
  have hHU : (preds.filter fun p =>
      UNCERTAINTY_THRESHOLD < p.interQuartileRange) = [] :=
    List.filter_eq_nil_iff.mpr fun p hp => by
      simpa using not_lt.mpr (hiqr p hp)
  have hkey : createOptimalPortfolio preds [] 10000 nowTs =
      Except.ok
        ((((preds.take 10).map fun p =>
            (⟨p.ticker, nowTs, Side.long, 500, Action.openPosition⟩ :
              Position)) ++
          ((preds.drop 20).map fun p =>
            (⟨p.ticker, nowTs, Side.short, 500, Action.openPosition⟩ :
              Position))).insertionSort positionLE) := by
    simp only [createOptimalPortfolio, hHU, collectPortfolioPositions,
      filterSideCapitalAmount, List.filter_nil, List.map_nil,
      List.nil_append, List.append_nil, List.sum_nil, List.length_nil,
      List.not_mem_nil, not_false_eq_true, decide_True, List.filter_true,
      h30, List.length_map, List.length_take]
    norm_num
  refine ⟨_, hkey, ?_, ?_, ?_, ?_, ?_, ?_, ?_⟩
  · exact List.perm_insertionSort positionLE _
  · rw [(List.perm_insertionSort positionLE _).length_eq,
      List.length_append, List.length_map, List.length_map,
      List.length_take, List.length_drop, h30]
    norm_num
  · intro r hr
    have hr2 := (List.perm_insertionSort positionLE _).mem_iff.mp hr
    rcases List.mem_append.mp hr2 with hmem | hmem <;>
      obtain ⟨p, _, rfl⟩ := List.mem_map.mp hmem <;> exact ⟨rfl, rfl⟩
  · have hfL : (((((preds.take 10).map fun p =>
        (⟨p.ticker, nowTs, Side.long, 500, Action.openPosition⟩ :
          Position)) ++
        ((preds.drop 20).map fun p =>
          (⟨p.ticker, nowTs, Side.short, 500, Action.openPosition⟩ :
            Position)))).filter fun r => r.side = Side.long) =
        ((preds.take 10).map fun p =>
          (⟨p.ticker, nowTs, Side.long, 500, Action.openPosition⟩ :
            Position)) := by
      rw [List.filter_append]
      rw [List.filter_eq_self.mpr fun a ha => by
        obtain ⟨p, _, rfl⟩ := List.mem_map.mp ha
        simp]
      rw [List.filter_eq_nil_iff.mpr fun a ha => by
        obtain ⟨p, _, rfl⟩ := List.mem_map.mp ha
        simp, List.append_nil]
    have hp : ((((preds.take 10).map fun p =>
        (⟨p.ticker, nowTs, Side.long, 500, Action.openPosition⟩ :
          Position)) ++
        ((preds.drop 20).map fun p =>
          (⟨p.ticker, nowTs, Side.short, 500, Action.openPosition⟩ :
            Position))).insertionSort positionLE).filter
          (fun r => r.side = Side.long) |>.Perm
        ((preds.take 10).map fun p =>
          (⟨p.ticker, nowTs, Side.long, 500, Action.openPosition⟩ :
            Position)) := by
      conv_rhs => rw [← hfL]
      exact (List.perm_insertionSort positionLE _).filter _
    rw [(hp.map Position.dollarAmount).sum_eq, List.map_map]
    have : ((preds.take 10).map
        (Position.dollarAmount ∘ fun p =>
          (⟨p.ticker, nowTs, Side.long, 500, Action.openPosition⟩ :
            Position))) = (preds.take 10).map fun _ => (500 : ℚ) := rfl
    rw [this, List.map_const', List.sum_replicate, List.length_take, h30]
    norm_num
  · have hfS : (((((preds.take 10).map fun p =>
        (⟨p.ticker, nowTs, Side.long, 500, Action.openPosition⟩ :
          Position)) ++
        ((preds.drop 20).map fun p =>
          (⟨p.ticker, nowTs, Side.short, 500, Action.openPosition⟩ :
            Position)))).filter fun r => r.side = Side.short) =
        ((preds.drop 20).map fun p =>
          (⟨p.ticker, nowTs, Side.short, 500, Action.openPosition⟩ :
            Position)) := by
      rw [List.filter_append]
      rw [List.filter_eq_nil_iff.mpr fun a ha => by
        obtain ⟨p, _, rfl⟩ := List.mem_map.mp ha
        simp]
      rw [List.filter_eq_self.mpr fun a ha => by
        obtain ⟨p, _, rfl⟩ := List.mem_map.mp ha
        simp, List.nil_append]
    have hp : ((((preds.take 10).map fun p =>
        (⟨p.ticker, nowTs, Side.long, 500, Action.openPosition⟩ :
          Position)) ++
        ((preds.drop 20).map fun p =>
          (⟨p.ticker, nowTs, Side.short, 500, Action.openPosition⟩ :
            Position))).insertionSort positionLE).filter
          (fun r => r.side = Side.short) |>.Perm
        ((preds.drop 20).map fun p =>
          (⟨p.ticker, nowTs, Side.short, 500, Action.openPosition⟩ :
            Position)) := by
      conv_rhs => rw [← hfS]
      exact (List.perm_insertionSort positionLE _).filter _
    rw [(hp.map Position.dollarAmount).sum_eq, List.map_map]
    have : ((preds.drop 20).map
        (Position.dollarAmount ∘ fun p =>
          (⟨p.ticker, nowTs, Side.short, 500, Action.openPosition⟩ :
            Position))) = (preds.drop 20).map fun _ => (500 : ℚ) := rfl
    rw [this, List.map_const', List.sum_replicate, List.length_drop, h30]
    norm_num
  · have hsplit : List.Pairwise
        (fun a b => b.compositeScore ≤ a.compositeScore)
        (preds.take 10 ++ preds.drop 10) := by
      rw [List.take_append_drop]
      exact hsorted
    exact fun p hp q hq => (List.pairwise_append.mp hsplit).2.2 p hp q hq
  · have hsplit : List.Pairwise
        (fun a b => b.compositeScore ≤ a.compositeScore)
        (preds.take 20 ++ preds.drop 20) := by
      rw [List.take_append_drop]
      exact hsorted
    exact fun p hp q hq => (List.pairwise_append.mp hsplit).2.2 p hp q hq

/-- Witness for C1: the thirty-candidate fixture satisfies every hypothesis
and the constructor yields a 20-position portfolio. -/
theorem c1_constructor_30_candidates_witness :
    ∃ out, createOptimalPortfolio predsThirty [] 10000 0 = Except.ok out ∧
      out.length = 20 := by
  obtain ⟨out, hok, _, hlen, _⟩ :=
    c1_constructor_30_candidates predsThirty 0 (by decide) (by decide)
      (by decide) (by decide)
  exact ⟨out, hok, hlen⟩

end Fund
